import Mathlib

/-!
Verification of the rectangle-region engine of `axutils.py` (class `RangeDesc`
and its geometry operations).  The external spreadsheet surface (xlwings) is
modelled by an abstract `World` that resolves name pairs to sheets and answers
range lookups; a `none` answer of a lookup models the collaborator raising an
exception at that call site.  Each mutating method of `RangeDesc` is embedded
as a state-passing function returning the state of the object together with an
optional raised error (the state component is the object exactly as the method
left it, also when it raised).  Surface-touching operations additionally return
the list of surface calls they performed, in order.
-/

namespace XlwingsExt

/-- A live worksheet handle, identified by its workbook full name and sheet
name (`worksheet.book.fullname` / `worksheet.name` in the source). -/
structure SheetId where
  book : String
  sheet : String
deriving DecidableEq, Repr

/-- A live rectangular range handle: the source reads `.row`, `.column`,
`.last_cell.row` and `.last_cell.column` from it. -/
structure Rect where
  row : Int
  column : Int
  last_row : Int
  last_col : Int
deriving DecidableEq, Repr

/-- Exceptions the embedded code can raise.  `invalidRange` is the
`ValueError` of `__check__` (carrying the four offending bounds),
`unsupportedMode` the `ValueError` of `shift_away` (carrying the mode);
the others stand for exceptions escaping from the external collaborator
(`resolutionError` from `xw.Book(..).sheets[..]`, `attributeError` from
calling `.range` on `None`, `rangeError`/`insertError`/`expandError` from
the respective xlwings calls). -/
inductive Err where
  | invalidRange (r1 r2 r3 r4 : Int)
  | unsupportedMode (mode : String)
  | resolutionError (wb sh : String)
  | attributeError
  | rangeError
  | insertError
  | expandError
deriving DecidableEq, Repr

/-- Calls made into the external surface, in program order. -/
inductive SEvent where
  | resolve (wb sh : String)
  | rangeLookup (sid : SheetId)
  | insert (sid : SheetId)
deriving DecidableEq, Repr

/-- The external spreadsheet application.  Lookup functions return `none`
exactly when the corresponding xlwings call raises.  Real range handles
always have their first cell at or before their last cell; the two `_wf`
fields record that. -/
structure World where
  resolve : String → String → Option SheetId
  rangeBy : SheetId → Option String → Option String → Option Rect
  rangeT : SheetId → Int × Int → Int × Int → Option Rect
  insertOk : SheetId → Rect → String → Bool
  anchorBlank : SheetId → Rect → Bool
  expandA : SheetId → Rect → String → Option String
  rangeBy_wf : ∀ sid c1 c2 rg, rangeBy sid c1 c2 = some rg →
    rg.row ≤ rg.last_row ∧ rg.column ≤ rg.last_col
  rangeT_wf : ∀ sid p q rg, rangeT sid p q = some rg →
    rg.row ≤ rg.last_row ∧ rg.column ≤ rg.last_col

/-- The argument of `RangeDesc.move`: a `(row, col)` tuple, a live
`xw.Range` handle, an address string, or any other Python value. -/
inductive MoveTarget where
  | pt (p : Int × Int)
  | rng (rg : Rect)
  | addr (a : String)
  | other
deriving DecidableEq, Repr

/-- The state of a `RangeDesc` object: the name-based sheet binding
(`_wb_name_`, `_sh_name_`) and the four bounds. -/
structure RangeDesc where
  wb_name : Option String
  sh_name : Option String
  row_start : Int
  col_start : Int
  row_end : Int
  col_end : Int
deriving DecidableEq, Repr

namespace RangeDesc

/-- `RangeDesc.__init__`: unbound, all bounds at the sentinel 0. -/
def init : RangeDesc := ⟨none, none, 0, 0, 0, 0⟩

def top (r : RangeDesc) : Int := r.row_start

def left (r : RangeDesc) : Int := r.col_start

def bottom (r : RangeDesc) : Int := r.row_end

def right (r : RangeDesc) : Int := r.col_end

def width (r : RangeDesc) : Int := r.col_end - r.col_start + 1

def height (r : RangeDesc) : Int := r.row_end - r.row_start + 1

def px (r : RangeDesc) : Int × Int := (r.row_start, r.col_start)

def py (r : RangeDesc) : Int × Int := (r.row_end, r.col_end)

def rangeable (r : RangeDesc) : Prop :=
  r.row_start > 0 ∧ r.row_end > 0 ∧ r.col_start > 0 ∧ r.col_end > 0

/-- `RangeDesc.__check__`: substitute missing arguments with the current
bounds, raise `ValueError` if the ordering is violated (leaving the object
untouched, since the check precedes every assignment), else assign all
four bounds. -/
def __check__ (r : RangeDesc) (row_start col_start row_end col_end : Option Int) :
    RangeDesc × Option Err :=
  let r1 := row_start.getD r.row_start
  let r2 := col_start.getD r.col_start
  let r3 := row_end.getD r.row_end
  let r4 := col_end.getD r.col_end
  if r1 > r3 ∨ r2 > r4 then
    (r, some (Err.invalidRange r1 r2 r3 r4))
  else
    ({ r with row_start := r1, col_start := r2, row_end := r3, col_end := r4 }, none)

/-- `RangeDesc.update`: delegate to `__check__` and return self. -/
def update (r : RangeDesc) (row_start col_start row_end col_end : Option Int) :
    RangeDesc × Option Err :=
  __check__ r row_start col_start row_end col_end

/-- `RangeDesc.attach`: a null worksheet keeps the current binding,
otherwise store the sheet's workbook full name and sheet name. -/
def attach (r : RangeDesc) (worksheet : Option SheetId) : RangeDesc :=
  match worksheet with
  | none => r
  | some sid => { r with wb_name := some sid.book, sh_name := some sid.sheet }

/-- `RangeDesc.detach`: clear the name-based binding. -/
def detach (r : RangeDesc) : RangeDesc := { r with wb_name := none, sh_name := none }

/-- The `worksheet` property: when both names are set, look the sheet up
(`xw.Book(wb).sheets[sh]`), propagating the exception when the lookup
fails; when either name is unset, return `None` without touching the
surface. -/
def worksheet (w : World) (r : RangeDesc) :
    Except Err (Option SheetId) × List SEvent :=
  match r.wb_name, r.sh_name with
  | some wb, some sh =>
    (match w.resolve wb sh with
     | some sid => (Except.ok (some sid), [SEvent.resolve wb sh])
     | none => (Except.error (Err.resolutionError wb sh), [SEvent.resolve wb sh]))
  | _, _ => (Except.ok none, [])

/-- The `range` property: resolve the worksheet (an exception there
propagates), then look up `sh.range(self.px, self.py)` inside a
try/except that turns any failure into `None`. -/
def range (w : World) (r : RangeDesc) : Except Err (Option (SheetId × Rect)) :=
  match (worksheet w r).1 with
  | Except.error e => Except.error e
  | Except.ok none => Except.ok none
  | Except.ok (some sid) =>
    match w.rangeT sid r.px r.py with
    | some rg => Except.ok (some (sid, rg))
    | none => Except.ok none

/-- `RangeDesc.move`: tuple and live-handle targets reposition the start
corner and translate the end corner by the same delta (an invalid result
raises); string targets do the same inside a try/except that swallows any
failure; every other target falls through all branches and is a no-op. -/
def move (w : World) (r : RangeDesc) (px : MoveTarget) :
    (RangeDesc × Option Err) × List SEvent :=
  match px with
  | MoveTarget.pt p =>
    let vr := p.1 - r.row_start
    let vc := p.2 - r.col_start
    (update r (some p.1) (some p.2) (some (r.row_end + vr)) (some (r.col_end + vc)), [])
  | MoveTarget.rng rg =>
    let vr := rg.row - r.row_start
    let vc := rg.column - r.col_start
    (update r (some rg.row) (some rg.column) (some (r.row_end + vr)) (some (r.col_end + vc)), [])
  | MoveTarget.addr a =>
    match worksheet w r with
    | (Except.error _, ev) => ((r, none), ev)
    | (Except.ok none, ev) => ((r, none), ev)
    | (Except.ok (some sid), ev) =>
      match w.rangeBy sid (some a) none with
      | none => ((r, none), ev ++ [SEvent.rangeLookup sid])
      | some rg =>
        let vr := rg.row - r.row_start
        let vc := rg.column - r.col_start
        (((update r (some rg.row) (some rg.column)
            (some (r.row_end + vr)) (some (r.col_end + vc))).1, none),
          ev ++ [SEvent.rangeLookup sid])
  | MoveTarget.other => ((r, none), [])

/-- `RangeDesc.update_by`: resolve the worksheet (outside any handler, so
a failing resolution propagates); on an unbound region do nothing; else
look up `range(cell1, cell2)` and adopt the handle's corners, with the
whole lookup-and-adopt wrapped in a try/except that swallows failure. -/
def update_by (w : World) (r : RangeDesc) (cell1 cell2 : Option String) :
    RangeDesc × Option Err :=
  match (worksheet w r).1 with
  | Except.error e => (r, some e)
  | Except.ok none => (r, none)
  | Except.ok (some sid) =>
    match w.rangeBy sid cell1 cell2 with
    | none => (r, none)
    | some rg =>
      ({ r with row_start := rg.row, col_start := rg.column,
                row_end := rg.last_row, col_end := rg.last_col }, none)

/-- `RangeDesc.update_from`: copy the sheet binding of `desc`, then
`update` with all four of its bounds; a null `desc` is a no-op. -/
def update_from (r : RangeDesc) (desc : Option RangeDesc) : RangeDesc × Option Err :=
  match desc with
  | none => (r, none)
  | some d =>
    update { r with wb_name := d.wb_name, sh_name := d.sh_name }
      (some d.row_start) (some d.col_start) (some d.row_end) (some d.col_end)

/-- `RangeDesc.offset`: translate all four bounds by the given deltas
(defaulting to 0). -/
def offset (r : RangeDesc) (row_offset column_offset : Option Int) :
    RangeDesc × Option Err :=
  let vr := row_offset.getD 0
  let vc := column_offset.getD 0
  update r (some (r.row_start + vr)) (some (r.col_start + vc))
    (some (r.row_end + vr)) (some (r.col_end + vc))

/-- `RangeDesc.resize`: adjust only the end corner so height/width match
the requested values. -/
def resize (r : RangeDesc) (row_size column_size : Option Int) :
    RangeDesc × Option Err :=
  let vr := match row_size with
    | none => (0 : Int)
    | some n => n - r.height
  let vc := match column_size with
    | none => (0 : Int)
    | some n => n - r.width
  update r none none (some (r.row_end + vr)) (some (r.col_end + vc))

/-- `RangeDesc.expand`: read `self.range` (a failing worksheet resolution
propagates); on `None` return unchanged; on a blank anchor cell return
unchanged; else grow the handle along `mode` and adopt the resulting
address via `update_by`. -/
def expand (w : World) (r : RangeDesc) (mode : String) : RangeDesc × Option Err :=
  match range w r with
  | Except.error e => (r, some e)
  | Except.ok none => (r, none)
  | Except.ok (some (sid, rg)) =>
    if w.anchorBlank sid rg then (r, none)
    else
      match w.expandA sid rg mode with
      | none => (r, some Err.expandError)
      | some addr => update_by w r (some addr) none

/-- `RangeDesc.duplicate`: a fresh region updated with this one's bounds,
then attached to this one's resolved worksheet (whose resolution can
raise). -/
def duplicate (w : World) (r : RangeDesc) : Except Err RangeDesc :=
  match update init (some r.row_start) (some r.col_start) (some r.row_end) (some r.col_end) with
  | (_, some e) => Except.error e
  | (c, none) =>
    match (worksheet w r).1 with
    | Except.error e => Except.error e
    | Except.ok ws => Except.ok (attach c ws)

/-- `RangeDesc.intersect`: resolve both worksheets (exceptions
propagate); different surfaces or a four-sided separation give `None`;
otherwise each side takes the target's bound when the target's
corresponding edge lies within self's span on that axis, and self's bound
otherwise, and the result is a fresh region attached to self's resolved
worksheet.  (A null target, which also gives `None`, is not modelled.) -/
def intersect (w : World) (s t : RangeDesc) :
    Except Err (Option RangeDesc) × List SEvent :=
  match (worksheet w s).1 with
  | Except.error e => (Except.error e, (worksheet w s).2)
  | Except.ok sws =>
    match (worksheet w t).1 with
    | Except.error e => (Except.error e, (worksheet w s).2 ++ (worksheet w t).2)
    | Except.ok tws =>
      let ev := (worksheet w s).2 ++ (worksheet w t).2
      if tws ≠ sws then (Except.ok none, ev)
      else if t.top > s.bottom ∨ t.bottom < s.top ∨ t.left > s.right ∨ t.right < s.left then
        (Except.ok none, ev)
      else
        let r1 := if t.top ≥ s.top ∧ t.top ≤ s.bottom then t.row_start else s.row_start
        let r2 := if t.left ≥ s.left ∧ t.left ≤ s.right then t.col_start else s.col_start
        let r3 := if t.bottom ≥ s.top ∧ t.bottom ≤ s.bottom then t.row_end else s.row_end
        let r4 := if t.right ≥ s.left ∧ t.right ≤ s.right then t.col_end else s.col_end
        match update (attach init sws) (some r1) (some r2) (some r3) (some r4) with
        | (rr, none) => (Except.ok (some rr), ev)
        | (_, some e) => (Except.error e, ev)

end RangeDesc

/-- `dec2alphabet` on naturals: 0 gives the empty string, else base-26
letters (A=1 … Z=26). -/
def dec2alphabetN (d : Nat) : String :=
  if d = 0 then ""
  else if d ≤ 26 then String.singleton (Char.ofNat (64 + d))
  else dec2alphabetN ((d - 1) / 26) ++ String.singleton (Char.ofNat (65 + (d - 1) % 26))
termination_by d
decreasing_by
  exact Nat.lt_of_le_of_lt (Nat.div_le_self _ _) (by omega)

/-- `dec2alphabet`: column number to letters; non-positive gives ''. -/
def dec2alphabet (dec : Int) : String := dec2alphabetN dec.toNat

namespace RangeDesc

/-- `RangeDesc.shift_away`: no overlap (per `intersect`) is a no-op; on
overlap, compute the gaps from self's own top-left corner, resolve the
target's worksheet (raising on an unbound target or failed resolution),
look up the insertion range (entire rows/columns or a partial range),
insert, and move self past the gap.  Any mode other than
"right"/"down" raises `ValueError` naming the mode. -/
def shift_away (w : World) (s t : RangeDesc) (mode : String) (entire : Bool) :
    (RangeDesc × Option Err) × List SEvent :=
  match (intersect w s t).1 with
  | Except.error e => ((s, some e), (intersect w s t).2)
  | Except.ok none => ((s, none), (intersect w s t).2)
  | Except.ok (some _) =>
    let ev := (intersect w s t).2
    let gap_h := t.right - s.left
    let gap_v := t.bottom - s.top
    if mode = "right" then
      match (worksheet w t).1 with
      | Except.error e => ((s, some e), ev ++ (worksheet w t).2)
      | Except.ok none => ((s, some Err.attributeError), ev ++ (worksheet w t).2)
      | Except.ok (some sid) =>
        let ev2 := ev ++ (worksheet w t).2
        let look :=
          if entire then
            w.rangeBy sid (some (dec2alphabet s.left ++ ":" ++ dec2alphabet (s.left + gap_h))) none
          else
            w.rangeT sid s.px (s.row_end, s.left + gap_h)
        match look with
        | none => ((s, some Err.rangeError), ev2 ++ [SEvent.rangeLookup sid])
        | some rg =>
          if w.insertOk sid rg mode then
            ((move w s (MoveTarget.pt (s.row_start, s.left + gap_h + 1))).1,
              ev2 ++ [SEvent.rangeLookup sid, SEvent.insert sid])
          else
            ((s, some Err.insertError), ev2 ++ [SEvent.rangeLookup sid, SEvent.insert sid])
    else if mode = "down" then
      match (worksheet w t).1 with
      | Except.error e => ((s, some e), ev ++ (worksheet w t).2)
      | Except.ok none => ((s, some Err.attributeError), ev ++ (worksheet w t).2)
      | Except.ok (some sid) =>
        let ev2 := ev ++ (worksheet w t).2
        let look :=
          if entire then
            w.rangeBy sid (some (toString s.top ++ ":" ++ toString (s.top + gap_v))) none
          else
            w.rangeT sid s.px (s.top + gap_v, s.col_end)
        match look with
        | none => ((s, some Err.rangeError), ev2 ++ [SEvent.rangeLookup sid])
        | some rg =>
          if w.insertOk sid rg mode then
            ((move w s (MoveTarget.pt (s.top + gap_v + 1, s.col_start))).1,
              ev2 ++ [SEvent.rangeLookup sid, SEvent.insert sid])
          else
            ((s, some Err.insertError), ev2 ++ [SEvent.rangeLookup sid, SEvent.insert sid])
    else
      ((s, some (Err.unsupportedMode mode)), ev)

/-- The data-model invariant: the start corner never lies past the end
corner. -/
def ValidR (r : RangeDesc) : Prop := r.row_start ≤ r.row_end ∧ r.col_start ≤ r.col_end

instance (r : RangeDesc) : Decidable (ValidR r) :=
  inferInstanceAs (Decidable (_ ∧ _))

end RangeDesc

/-- A fully functional surface: every name pair resolves (to a sheet
carrying those very names), every range lookup succeeds with the unit
cell at (1,1), every insertion succeeds, and every anchor cell is
blank. -/
def wOk : World where
  resolve := fun wb sh => some ⟨wb, sh⟩
  rangeBy := fun _ _ _ => some ⟨1, 1, 1, 1⟩
  rangeT := fun _ _ _ => some ⟨1, 1, 1, 1⟩
  insertOk := fun _ _ _ => true
  anchorBlank := fun _ _ => true
  expandA := fun _ _ _ => some "A1"
  rangeBy_wf := fun _ _ _ _ h => by cases h; exact ⟨by decide, by decide⟩
  rangeT_wf := fun _ _ _ _ h => by cases h; exact ⟨by decide, by decide⟩

/-- A vanished surface: every resolution and every lookup raises. -/
def wBad : World where
  resolve := fun _ _ => none
  rangeBy := fun _ _ _ => none
  rangeT := fun _ _ _ => none
  insertOk := fun _ _ _ => false
  anchorBlank := fun _ _ => false
  expandA := fun _ _ _ => none
  rangeBy_wf := fun _ _ _ _ h => by cases h
  rangeT_wf := fun _ _ _ _ h => by cases h

/-- Region A of the end-to-end scenario: rows 1–5, cols 1–3, bound to
sheet "S" of workbook "B". -/
def sB : RangeDesc := ⟨some "B", some "S", 1, 1, 5, 3⟩

/-- Region B of the end-to-end scenario: rows 3–4, cols 2–5, bound to
the same sheet. -/
def tB : RangeDesc := ⟨some "B", some "S", 3, 2, 4, 5⟩

namespace RangeDesc

lemma update_ok (r : RangeDesc) (a b c d : Int) (h1 : a ≤ c) (h2 : b ≤ d) :
    update r (some a) (some b) (some c) (some d) =
      ({ r with row_start := a, col_start := b, row_end := c, col_end := d }, none) := by
  unfold update __check__
  simp only [Option.getD_some]
  rw [if_neg (by omega)]

lemma update_err (r : RangeDesc) (a b c d : Int) (h : a > c ∨ b > d) :
    update r (some a) (some b) (some c) (some d) =
      (r, some (Err.invalidRange a b c d)) := by
  unfold update __check__
  simp only [Option.getD_some]
  rw [if_pos (by omega)]

lemma update_valid (r : RangeDesc) (a b c d : Option Int) (h : ValidR r) :
    ValidR (update r a b c d).1 := by
  simp only [update, __check__]
  split_ifs with hno
  · exact h
  · exact ⟨by dsimp only; omega, by dsimp only; omega⟩

lemma offset_ok (r : RangeDesc) (dr dc : Int) (h : ValidR r) :
    offset r (some dr) (some dc) =
      ({ r with row_start := r.row_start + dr, col_start := r.col_start + dc,
                row_end := r.row_end + dr, col_end := r.col_end + dc }, none) := by
  obtain ⟨hr, hc⟩ := h
  unfold offset
  simp only [Option.getD_some]
  exact update_ok _ _ _ _ _ (by omega) (by omega)

end RangeDesc

/-- C1. For every region and every (a,b,c,d) with a ≤ c and b ≤ d,
`update(a,b,c,d)` succeeds (returning the region itself, now holding
exactly those four bounds); for a > c or b > d it raises the InvalidRange
`ValueError` carrying the four offending bounds and leaves all four prior
bounds (and the sheet binding) unchanged. -/
theorem c1_update_contract (r : XlwingsExt.RangeDesc) (a b c d : Int) :
    (a ≤ c ∧ b ≤ d →
      RangeDesc.update r (some a) (some b) (some c) (some d) =
        ({ r with row_start := a, col_start := b, row_end := c, col_end := d }, none)) ∧
    (a > c ∨ b > d →
      RangeDesc.update r (some a) (some b) (some c) (some d) =
        (r, some (Err.invalidRange a b c d))) :=
  ⟨fun h => RangeDesc.update_ok r a b c d h.1 h.2,
   fun h => RangeDesc.update_err r a b c d h⟩

/-- Witness for C1 at concrete inputs: a successful update to (1,1,2,2)
and a rejected update to (3,1,2,2). -/
theorem c1_update_contract_witness :
    RangeDesc.update RangeDesc.init (some 1) (some 1) (some 2) (some 2) =
      ({ RangeDesc.init with row_start := 1, col_start := 1, row_end := 2, col_end := 2 },
        none) ∧
    RangeDesc.update RangeDesc.init (some 3) (some 1) (some 2) (some 2) =
      (RangeDesc.init, some (Err.invalidRange 3 1 2 2)) :=
  ⟨(c1_update_contract RangeDesc.init 1 1 2 2).1 ⟨by decide, by decide⟩,
   (c1_update_contract RangeDesc.init 3 1 2 2).2 (by decide)⟩

/-- C8. On a region satisfying the ordering invariant, `offset(dr, dc)`
succeeds for every pair of integer deltas, translating all four bounds by
(dr, dc) and preserving width and height, and `offset(-dr, -dc)` then
restores the original region exactly. -/
theorem c8_offset_roundtrip (r : XlwingsExt.RangeDesc) (dr dc : Int)
    (h : RangeDesc.ValidR r) :
    RangeDesc.offset r (some dr) (some dc) =
      ({ r with row_start := r.row_start + dr, col_start := r.col_start + dc,
                row_end := r.row_end + dr, col_end := r.col_end + dc }, none) ∧
    RangeDesc.width (RangeDesc.offset r (some dr) (some dc)).1 = RangeDesc.width r ∧
    RangeDesc.height (RangeDesc.offset r (some dr) (some dc)).1 = RangeDesc.height r ∧
    RangeDesc.offset (RangeDesc.offset r (some dr) (some dc)).1
      (some (-dr)) (some (-dc)) = (r, none) := by
  obtain ⟨hr, hc⟩ := h
  have e1 := RangeDesc.offset_ok r dr dc ⟨hr, hc⟩
  refine ⟨e1, ?_, ?_, ?_⟩
  · rw [e1]; simp [RangeDesc.width]
  · rw [e1]; simp [RangeDesc.height]
  · rw [e1]
    dsimp only
    rw [RangeDesc.offset_ok _ (-dr) (-dc) ⟨by simp; omega, by simp; omega⟩]
    obtain ⟨wb, sh, a, b, c, d⟩ := r
    simp

/-- Witness for C8 at a concrete valid region and deltas (5, -2). -/
theorem c8_offset_roundtrip_witness :
    RangeDesc.offset (⟨none, none, 1, 1, 2, 3⟩ : XlwingsExt.RangeDesc)
        (some 5) (some (-2)) =
      (⟨none, none, 6, -1, 7, 1⟩, none) ∧
    RangeDesc.width (RangeDesc.offset (⟨none, none, 1, 1, 2, 3⟩ : XlwingsExt.RangeDesc)
        (some 5) (some (-2))).1 =
      RangeDesc.width ⟨none, none, 1, 1, 2, 3⟩ ∧
    RangeDesc.height (RangeDesc.offset (⟨none, none, 1, 1, 2, 3⟩ : XlwingsExt.RangeDesc)
        (some 5) (some (-2))).1 =
      RangeDesc.height ⟨none, none, 1, 1, 2, 3⟩ ∧
    RangeDesc.offset (RangeDesc.offset (⟨none, none, 1, 1, 2, 3⟩ : XlwingsExt.RangeDesc)
        (some 5) (some (-2))).1 (some (-5)) (some (-(-2))) =
      (⟨none, none, 1, 1, 2, 3⟩, none) :=
  c8_offset_roundtrip ⟨none, none, 1, 1, 2, 3⟩ 5 (-2) ⟨by decide, by decide⟩

namespace RangeDesc

lemma intersect_sep (w : World) (s t : RangeDesc) (sws tws : Option SheetId)
    (e1 e2 : List SEvent)
    (hs : worksheet w s = (Except.ok sws, e1))
    (ht : worksheet w t = (Except.ok tws, e2))
    (h : tws ≠ sws ∨ t.top > s.bottom ∨ t.bottom < s.top ∨ t.left > s.right ∨ t.right < s.left) :
    intersect w s t = (Except.ok none, e1 ++ e2) := by
  unfold intersect
  rw [hs, ht]
  dsimp only
  by_cases hne : tws ≠ sws
  · rw [if_pos hne]
  · rw [if_neg hne, if_pos (by tauto)]

lemma intersect_overlap (w : World) (s t : RangeDesc) (sws : Option SheetId)
    (e1 e2 : List SEvent)
    (hs : worksheet w s = (Except.ok sws, e1))
    (ht : worksheet w t = (Except.ok sws, e2))
    (hvs : ValidR s) (hvt : ValidR t)
    (hov : ¬(t.top > s.bottom ∨ t.bottom < s.top ∨ t.left > s.right ∨ t.right < s.left)) :
    intersect w s t =
      (Except.ok (some { attach init sws with
          row_start := if t.top ≥ s.top ∧ t.top ≤ s.bottom then t.row_start else s.row_start,
          col_start := if t.left ≥ s.left ∧ t.left ≤ s.right then t.col_start else s.col_start,
          row_end := if t.bottom ≥ s.top ∧ t.bottom ≤ s.bottom then t.row_end else s.row_end,
          col_end := if t.right ≥ s.left ∧ t.right ≤ s.right then t.col_end else s.col_end }),
        e1 ++ e2) := by
  obtain ⟨hvs1, hvs2⟩ := hvs
  obtain ⟨hvt1, hvt2⟩ := hvt
  simp only [top, bottom, left, right] at hov
  unfold intersect
  rw [hs, ht]
  dsimp only
  rw [if_neg (fun hh => hh rfl), if_neg (by simp only [top, bottom, left, right]; omega)]
  rw [update_ok _ _ _ _ _
    (by simp only [top, bottom, left, right]; split_ifs <;> omega)
    (by simp only [top, bottom, left, right]; split_ifs <;> omega)]

end RangeDesc

/-- C2. With both sheet references resolving without an exception and
both regions satisfying the ordering invariant: `intersect(target)`
returns `None` exactly when the two resolved surfaces differ or the
four-sided separation check fires; otherwise it returns a fresh region
whose bound on each side is the target's bound when the target's
corresponding edge falls within self's span on that axis and self's bound
otherwise, attached (via `attach`) to self's resolved worksheet. -/
theorem c2_intersect_spec (w : World) (s t : XlwingsExt.RangeDesc)
    (sws tws : Option SheetId) (e1 e2 : List SEvent)
    (hs : RangeDesc.worksheet w s = (Except.ok sws, e1))
    (ht : RangeDesc.worksheet w t = (Except.ok tws, e2))
    (hvs : RangeDesc.ValidR s) (hvt : RangeDesc.ValidR t) :
    ((RangeDesc.intersect w s t).1 = Except.ok none ↔
      tws ≠ sws ∨ RangeDesc.top t > RangeDesc.bottom s ∨
        RangeDesc.bottom t < RangeDesc.top s ∨
        RangeDesc.left t > RangeDesc.right s ∨
        RangeDesc.right t < RangeDesc.left s) ∧
    (tws = sws →
      ¬(RangeDesc.top t > RangeDesc.bottom s ∨ RangeDesc.bottom t < RangeDesc.top s ∨
        RangeDesc.left t > RangeDesc.right s ∨ RangeDesc.right t < RangeDesc.left s) →
      (RangeDesc.intersect w s t).1 =
        Except.ok (some { RangeDesc.attach RangeDesc.init sws with
          row_start := if RangeDesc.top t ≥ RangeDesc.top s ∧
              RangeDesc.top t ≤ RangeDesc.bottom s then t.row_start else s.row_start,
          col_start := if RangeDesc.left t ≥ RangeDesc.left s ∧
              RangeDesc.left t ≤ RangeDesc.right s then t.col_start else s.col_start,
          row_end := if RangeDesc.bottom t ≥ RangeDesc.top s ∧
              RangeDesc.bottom t ≤ RangeDesc.bottom s then t.row_end else s.row_end,
          col_end := if RangeDesc.right t ≥ RangeDesc.left s ∧
              RangeDesc.right t ≤ RangeDesc.right s then t.col_end else s.col_end })) := by
  constructor
  · constructor
    · intro hres
      by_contra hcon
      push_neg at hcon
      obtain ⟨hsame, hnsep⟩ := hcon
      rw [RangeDesc.intersect_overlap w s t sws e1 e2 (hsame ▸ hs) (hsame ▸ ht) hvs hvt
        (by omega)] at hres
      simp at hres
    · intro hcond
      rw [RangeDesc.intersect_sep w s t sws tws e1 e2 hs ht hcond]
  · intro hsame hnsep
    subst hsame
    rw [RangeDesc.intersect_overlap w s t tws e1 e2 hs ht hvs hvt hnsep]

/-- Witness for C2 on the end-to-end scenario regions: A = rows 1–5,
cols 1–3 and B = rows 3–4, cols 2–5, both on sheet ("B","S") of a fully
working surface. -/
theorem c2_intersect_spec_witness :
    ((RangeDesc.intersect wOk sB tB).1 = Except.ok none ↔
      some (⟨"B", "S"⟩ : SheetId) ≠ some (⟨"B", "S"⟩ : SheetId) ∨
        RangeDesc.top tB > RangeDesc.bottom sB ∨
        RangeDesc.bottom tB < RangeDesc.top sB ∨
        RangeDesc.left tB > RangeDesc.right sB ∨
        RangeDesc.right tB < RangeDesc.left sB) ∧
    (some (⟨"B", "S"⟩ : SheetId) = some (⟨"B", "S"⟩ : SheetId) →
      ¬(RangeDesc.top tB > RangeDesc.bottom sB ∨ RangeDesc.bottom tB < RangeDesc.top sB ∨
        RangeDesc.left tB > RangeDesc.right sB ∨ RangeDesc.right tB < RangeDesc.left sB) →
      (RangeDesc.intersect wOk sB tB).1 =
        Except.ok (some { RangeDesc.attach RangeDesc.init (some ⟨"B", "S"⟩) with
          row_start := if RangeDesc.top tB ≥ RangeDesc.top sB ∧
              RangeDesc.top tB ≤ RangeDesc.bottom sB then tB.row_start else sB.row_start,
          col_start := if RangeDesc.left tB ≥ RangeDesc.left sB ∧
              RangeDesc.left tB ≤ RangeDesc.right sB then tB.col_start else sB.col_start,
          row_end := if RangeDesc.bottom tB ≥ RangeDesc.top sB ∧
              RangeDesc.bottom tB ≤ RangeDesc.bottom sB then tB.row_end else sB.row_end,
          col_end := if RangeDesc.right tB ≥ RangeDesc.left sB ∧
              RangeDesc.right tB ≤ RangeDesc.right sB then tB.col_end else sB.col_end })) :=
  c2_intersect_spec wOk sB tB (some ⟨"B", "S"⟩) (some ⟨"B", "S"⟩)
    [SEvent.resolve "B" "S"] [SEvent.resolve "B" "S"] rfl rfl
    (by decide) (by decide)

/-- C5. When both regions resolve to the same surface, satisfy the
ordering invariant, and overlap, the two intersections succeed and agree
on all four bounds. -/
theorem c5_intersect_comm (w : World) (A B : XlwingsExt.RangeDesc) (sid : SheetId)
    (e1 e2 : List SEvent)
    (hA : RangeDesc.worksheet w A = (Except.ok (some sid), e1))
    (hB : RangeDesc.worksheet w B = (Except.ok (some sid), e2))
    (hvA : RangeDesc.ValidR A) (hvB : RangeDesc.ValidR B)
    (hov : ¬(RangeDesc.top B > RangeDesc.bottom A ∨ RangeDesc.bottom B < RangeDesc.top A ∨
      RangeDesc.left B > RangeDesc.right A ∨ RangeDesc.right B < RangeDesc.left A)) :
    ∃ p q, (RangeDesc.intersect w A B).1 = Except.ok (some p) ∧
      (RangeDesc.intersect w B A).1 = Except.ok (some q) ∧
      p.row_start = q.row_start ∧ p.col_start = q.col_start ∧
      p.row_end = q.row_end ∧ p.col_end = q.col_end := by
  have hov2 : ¬(RangeDesc.top A > RangeDesc.bottom B ∨ RangeDesc.bottom A < RangeDesc.top B ∨
      RangeDesc.left A > RangeDesc.right B ∨ RangeDesc.right A < RangeDesc.left B) := by
    simp only [RangeDesc.top, RangeDesc.bottom, RangeDesc.left, RangeDesc.right] at hov ⊢
    omega
  obtain ⟨hvA1, hvA2⟩ := hvA
  obtain ⟨hvB1, hvB2⟩ := hvB
  refine ⟨_, _,
    (congrArg Prod.fst (RangeDesc.intersect_overlap w A B (some sid) e1 e2 hA hB
      ⟨hvA1, hvA2⟩ ⟨hvB1, hvB2⟩ hov)),
    (congrArg Prod.fst (RangeDesc.intersect_overlap w B A (some sid) e2 e1 hB hA
      ⟨hvB1, hvB2⟩ ⟨hvA1, hvA2⟩ hov2)), ?_, ?_, ?_, ?_⟩ <;>
  · simp only [RangeDesc.top, RangeDesc.bottom, RangeDesc.left, RangeDesc.right] at hov hov2 ⊢
    split_ifs <;> omega

/-- Witness for C5 on the scenario regions A and B of the working
surface. -/
theorem c5_intersect_comm_witness :
    ∃ p q, (RangeDesc.intersect wOk sB tB).1 = Except.ok (some p) ∧
      (RangeDesc.intersect wOk tB sB).1 = Except.ok (some q) ∧
      p.row_start = q.row_start ∧ p.col_start = q.col_start ∧
      p.row_end = q.row_end ∧ p.col_end = q.col_end :=
  c5_intersect_comm wOk sB tB ⟨"B", "S"⟩ [SEvent.resolve "B" "S"] [SEvent.resolve "B" "S"]
    rfl rfl (by decide) (by decide) (by decide)

/-- A region on the same sheet but fully separated from `sB` (it starts
below `sB`'s bottom row). -/
def tFar : RangeDesc := ⟨some "B", some "S", 10, 10, 12, 12⟩

namespace RangeDesc

lemma mem_worksheet_events (w : World) (r : RangeDesc) (e : SEvent)
    (he : e ∈ (worksheet w r).2) : ∃ wb sh, e = SEvent.resolve wb sh := by
  revert he
  unfold worksheet
  rcases r.wb_name with _ | wb <;> rcases r.sh_name with _ | sh
  · intro he; simp at he
  · intro he; simp at he
  · intro he; simp at he
  · dsimp only
    cases hres : w.resolve wb sh <;>
    · intro he
      simp at he
      exact ⟨wb, sh, he⟩

lemma intersect_events (w : World) (s t : RangeDesc) (sws tws : Option SheetId)
    (e1 e2 : List SEvent)
    (hs : worksheet w s = (Except.ok sws, e1))
    (ht : worksheet w t = (Except.ok tws, e2)) :
    (intersect w s t).2 = e1 ++ e2 := by
  unfold intersect
  rw [hs, ht]
  dsimp only
  split_ifs <;> first | rfl | (split <;> rfl)

lemma shift_away_overlap_right (w : World) (s t : RangeDesc) (x : RangeDesc)
    (sid : SheetId) (et : List SEvent) (entire : Bool)
    (hvs : ValidR s)
    (hov : (intersect w s t).1 = Except.ok (some x))
    (ht : worksheet w t = (Except.ok (some sid), et))
    (hrb : ∀ i a b, w.rangeBy i a b ≠ none)
    (hrt : ∀ i p q, w.rangeT i p q ≠ none)
    (hins : ∀ i rg m, w.insertOk i rg m = true) :
    (shift_away w s t "right" entire).1 =
      ({ s with col_start := left s + (right t - left s) + 1,
                col_end := s.col_end + (left s + (right t - left s) + 1 - s.col_start) },
        none) := by
  obtain ⟨hv1, hv2⟩ := hvs
  unfold shift_away
  rw [hov, ht]
  dsimp only
  rw [if_pos rfl]
  split
  next h =>
    exfalso
    cases entire
    · exact hrt _ _ _ (by simpa using h)
    · exact hrb _ _ _ (by simpa using h)
  next rg h =>
    rw [hins sid rg "right", if_pos rfl]
    unfold move
    dsimp only
    rw [update_ok _ _ _ _ _ (by omega) (by simp only [left, right]; omega)]
    simp [Prod.mk.injEq, RangeDesc.mk.injEq]

lemma shift_away_overlap_down (w : World) (s t : RangeDesc) (x : RangeDesc)
    (sid : SheetId) (et : List SEvent) (entire : Bool)
    (hvs : ValidR s)
    (hov : (intersect w s t).1 = Except.ok (some x))
    (ht : worksheet w t = (Except.ok (some sid), et))
    (hrb : ∀ i a b, w.rangeBy i a b ≠ none)
    (hrt : ∀ i p q, w.rangeT i p q ≠ none)
    (hins : ∀ i rg m, w.insertOk i rg m = true) :
    (shift_away w s t "down" entire).1 =
      ({ s with row_start := top s + (bottom t - top s) + 1,
                row_end := s.row_end + (top s + (bottom t - top s) + 1 - s.row_start) },
        none) := by
  obtain ⟨hv1, hv2⟩ := hvs
  unfold shift_away
  rw [hov, ht]
  dsimp only
  rw [if_neg (by decide), if_pos rfl]
  split
  next h =>
    exfalso
    cases entire
    · exact hrt _ _ _ (by simpa using h)
    · exact hrb _ _ _ (by simpa using h)
  next rg h =>
    rw [hins sid rg "down", if_pos rfl]
    unfold move
    dsimp only
    rw [update_ok _ _ _ _ _ (by simp only [top, bottom]; omega) (by omega)]
    simp [Prod.mk.injEq, RangeDesc.mk.injEq]

end RangeDesc

/-- C3. `shift_away` on a non-overlapping pair (per `intersect`) raises
nothing and leaves self unchanged, for any mode; on an overlapping pair,
with the target's surface resolving and the surface lookups and
insertion succeeding, mode "right" moves self's start column to
`self.left + (target.right - self.left) + 1` and mode "down" moves
self's start row to `self.top + (target.bottom - self.top) + 1`, both
preserving self's width and height. -/
theorem c3_shift_away_spec (w : World) (s t : XlwingsExt.RangeDesc) (entire : Bool) :
    (∀ mode, (RangeDesc.intersect w s t).1 = Except.ok none →
      (RangeDesc.shift_away w s t mode entire).1 = (s, none)) ∧
    (∀ x sid et, RangeDesc.ValidR s →
      (RangeDesc.intersect w s t).1 = Except.ok (some x) →
      RangeDesc.worksheet w t = (Except.ok (some sid), et) →
      (∀ i a b, w.rangeBy i a b ≠ none) →
      (∀ i p q, w.rangeT i p q ≠ none) →
      (∀ i rg m, w.insertOk i rg m = true) →
      ((RangeDesc.shift_away w s t "right" entire).1 =
          ({ s with
              col_start := RangeDesc.left s + (RangeDesc.right t - RangeDesc.left s) + 1,
              col_end := s.col_end +
                (RangeDesc.left s + (RangeDesc.right t - RangeDesc.left s) + 1 - s.col_start) },
            none) ∧
        RangeDesc.width (RangeDesc.shift_away w s t "right" entire).1.1 = RangeDesc.width s ∧
        RangeDesc.height (RangeDesc.shift_away w s t "right" entire).1.1 =
          RangeDesc.height s ∧
        (RangeDesc.shift_away w s t "down" entire).1 =
          ({ s with
              row_start := RangeDesc.top s + (RangeDesc.bottom t - RangeDesc.top s) + 1,
              row_end := s.row_end +
                (RangeDesc.top s + (RangeDesc.bottom t - RangeDesc.top s) + 1 - s.row_start) },
            none) ∧
        RangeDesc.width (RangeDesc.shift_away w s t "down" entire).1.1 = RangeDesc.width s ∧
        RangeDesc.height (RangeDesc.shift_away w s t "down" entire).1.1 =
          RangeDesc.height s)) := by
  constructor
  · intro mode hnone
    unfold RangeDesc.shift_away
    rw [hnone]
  · intro x sid et hvs hov ht hrb hrt hins
    have eR := RangeDesc.shift_away_overlap_right w s t x sid et entire hvs hov ht hrb hrt hins
    have eD := RangeDesc.shift_away_overlap_down w s t x sid et entire hvs hov ht hrb hrt hins
    refine ⟨eR, ?_, ?_, eD, ?_, ?_⟩ <;>
    · first
        | rw [eR]
        | rw [eD]
      simp only [RangeDesc.width, RangeDesc.height, RangeDesc.left, RangeDesc.right,
        RangeDesc.top, RangeDesc.bottom]
      all_goals omega

/-- Witness for C3: the non-overlap half on `sB` and the separated
region `tFar`; the overlap half on the scenario regions A and B. -/
theorem c3_shift_away_spec_witness :
    (RangeDesc.shift_away wOk sB tFar "right" true).1 = (sB, none) ∧
    ((RangeDesc.shift_away wOk sB tB "right" true).1 =
        ({ sB with
            col_start := RangeDesc.left sB + (RangeDesc.right tB - RangeDesc.left sB) + 1,
            col_end := sB.col_end +
              (RangeDesc.left sB + (RangeDesc.right tB - RangeDesc.left sB) + 1 - sB.col_start) },
          none) ∧
      RangeDesc.width (RangeDesc.shift_away wOk sB tB "right" true).1.1 = RangeDesc.width sB ∧
      RangeDesc.height (RangeDesc.shift_away wOk sB tB "right" true).1.1 =
        RangeDesc.height sB ∧
      (RangeDesc.shift_away wOk sB tB "down" true).1 =
        ({ sB with
            row_start := RangeDesc.top sB + (RangeDesc.bottom tB - RangeDesc.top sB) + 1,
            row_end := sB.row_end +
              (RangeDesc.top sB + (RangeDesc.bottom tB - RangeDesc.top sB) + 1 - sB.row_start) },
          none) ∧
      RangeDesc.width (RangeDesc.shift_away wOk sB tB "down" true).1.1 = RangeDesc.width sB ∧
      RangeDesc.height (RangeDesc.shift_away wOk sB tB "down" true).1.1 =
        RangeDesc.height sB) :=
  ⟨(c3_shift_away_spec wOk sB tFar true).1 "right" rfl,
   (c3_shift_away_spec wOk sB tB true).2 ⟨some "B", some "S", 3, 2, 4, 3⟩ ⟨"B", "S"⟩
     [SEvent.resolve "B" "S"] (by decide) rfl rfl
     (fun i a b h => Option.noConfusion h) (fun i p q h => Option.noConfusion h)
     (fun i rg m => rfl)⟩

/-- C4 as stated is refuted on a concrete input: with both regions bound
to a live sheet and an unsupported mode "up", `shift_away` does raise
the UnsupportedMode error with the mode named and leaves the bounds
unchanged, but the overlap check that runs first has already resolved
the surface, so a resolution call does occur before the mode is
rejected. -/
theorem c4_shift_away_cex :
    (RangeDesc.shift_away wOk sB tB "up" true).1 = (sB, some (Err.unsupportedMode "up")) ∧
    SEvent.resolve "B" "S" ∈ (RangeDesc.shift_away wOk sB tB "up" true).2 := by
  constructor
  · rfl
  · show SEvent.resolve "B" "S" ∈
      [SEvent.resolve "B" "S", SEvent.resolve "B" "S"]
    exact List.mem_cons_self _ _

/-- C4 amended: on an overlapping pair, a mode outside
{"down","right"} raises UnsupportedMode naming the offending mode and
leaves self's bounds unchanged, and no insertion (indeed no surface call
other than the worksheet resolutions of the preceding overlap check)
happens before the rejection; the mode check does not precede surface
resolution, since `intersect` resolves both surfaces first. -/
theorem c4_shift_away_amended (w : World) (s t : XlwingsExt.RangeDesc)
    (mode : String) (entire : Bool) (sws tws : Option SheetId)
    (es et : List SEvent) (x : XlwingsExt.RangeDesc)
    (hs : RangeDesc.worksheet w s = (Except.ok sws, es))
    (ht : RangeDesc.worksheet w t = (Except.ok tws, et))
    (hov : (RangeDesc.intersect w s t).1 = Except.ok (some x))
    (h1 : mode ≠ "right") (h2 : mode ≠ "down") :
    (RangeDesc.shift_away w s t mode entire).1 = (s, some (Err.unsupportedMode mode)) ∧
    ∀ e ∈ (RangeDesc.shift_away w s t mode entire).2,
      ∃ wb sh, e = SEvent.resolve wb sh := by
  have hsh : RangeDesc.shift_away w s t mode entire =
      ((s, some (Err.unsupportedMode mode)), (RangeDesc.intersect w s t).2) := by
    unfold RangeDesc.shift_away
    rw [hov]
    dsimp only
    rw [if_neg h1, if_neg h2]
  refine ⟨by rw [hsh], ?_⟩
  rw [hsh]
  dsimp only
  rw [RangeDesc.intersect_events w s t sws tws es et hs ht]
  intro e he
  rcases List.mem_append.mp he with h | h
  · exact RangeDesc.mem_worksheet_events w s e (by rw [hs]; exact h)
  · exact RangeDesc.mem_worksheet_events w t e (by rw [ht]; exact h)

/-- Witness for the amended C4 on the scenario regions with mode "up". -/
theorem c4_shift_away_amended_witness :
    (RangeDesc.shift_away wOk sB tB "up" true).1 =
      (sB, some (Err.unsupportedMode "up")) ∧
    ∀ e ∈ (RangeDesc.shift_away wOk sB tB "up" true).2,
      ∃ wb sh, e = SEvent.resolve wb sh :=
  c4_shift_away_amended wOk sB tB "up" true (some ⟨"B", "S"⟩) (some ⟨"B", "S"⟩)
    [SEvent.resolve "B" "S"] [SEvent.resolve "B" "S"] ⟨some "B", some "S", 3, 2, 4, 3⟩
    rfl rfl rfl (by decide) (by decide)

namespace RangeDesc

lemma attach_valid (r : RangeDesc) (ws : Option SheetId) (h : ValidR r) :
    ValidR (attach r ws) := by
  cases ws
  · exact h
  · exact ⟨h.1, h.2⟩

lemma update_from_valid (r : RangeDesc) (d : Option RangeDesc) (h : ValidR r) :
    ValidR (update_from r d).1 := by
  cases d
  · exact h
  · exact update_valid _ _ _ _ _ ⟨h.1, h.2⟩

lemma update_by_valid (w : World) (r : RangeDesc) (c1 c2 : Option String)
    (h : ValidR r) : ValidR (update_by w r c1 c2).1 := by
  unfold update_by
  split
  any_goals exact h
  split
  any_goals exact h
  next rg hrg =>
    have hwf := w.rangeBy_wf _ _ _ rg hrg
    exact ⟨hwf.1, hwf.2⟩

lemma move_valid (w : World) (r : RangeDesc) (p : MoveTarget) (h : ValidR r) :
    ValidR (move w r p).1.1 := by
  cases p with
  | pt p =>
    simp only [move]
    exact update_valid _ _ _ _ _ h
  | rng rg =>
    simp only [move]
    exact update_valid _ _ _ _ _ h
  | addr a =>
    simp only [move]
    split
    · exact h
    · exact h
    · split
      · exact h
      · exact update_valid _ _ _ _ _ h
  | other => exact h

lemma expand_valid (w : World) (r : RangeDesc) (mode : String) (h : ValidR r) :
    ValidR (expand w r mode).1 := by
  unfold expand
  repeat' split
  all_goals first
    | exact h
    | exact update_by_valid w r _ _ h

lemma shift_away_valid (w : World) (s t : RangeDesc) (mode : String) (entire : Bool)
    (h : ValidR s) : ValidR (shift_away w s t mode entire).1.1 := by
  simp only [shift_away]
  repeat' split
  all_goals first
    | exact h
    | exact move_valid w s _ h

lemma offset_valid (r : RangeDesc) (a b : Option Int) (h : ValidR r) :
    ValidR (offset r a b).1 := by
  unfold offset
  exact update_valid _ _ _ _ _ h

lemma resize_valid (r : RangeDesc) (a b : Option Int) (h : ValidR r) :
    ValidR (resize r a b).1 := by
  unfold resize
  exact update_valid _ _ _ _ _ h

lemma duplicate_valid (w : World) (r : RangeDesc) (c : RangeDesc) (h : ValidR r)
    (hd : duplicate w r = Except.ok c) : ValidR c := by
  unfold duplicate at hd
  rw [update_ok _ _ _ _ _ h.1 h.2] at hd
  dsimp only at hd
  split at hd
  · exact Except.noConfusion hd
  · injection hd with h2
    subst h2
    exact attach_valid _ _ ⟨h.1, h.2⟩

end RangeDesc

/-- C6. The ordering predicate `row_start ≤ row_end ∧ col_start ≤
col_end` holds of a freshly constructed region (all bounds at the
sentinel 0) and is preserved by every operation of the region type
(update, update_from, update_by, offset, resize, move, expand,
shift_away, attach, detach, duplicate) on any surface; and the only way
an operation rejects a result is `__check__` raising InvalidRange, whose
error carries exactly the four attempted bounds and leaves the region
unchanged. -/
theorem c6_invariant_preserved (w : World) :
    RangeDesc.ValidR RangeDesc.init ∧
    (∀ r a b c d, RangeDesc.ValidR r → RangeDesc.ValidR (RangeDesc.update r a b c d).1) ∧
    (∀ r d, RangeDesc.ValidR r → RangeDesc.ValidR (RangeDesc.update_from r d).1) ∧
    (∀ r c1 c2, RangeDesc.ValidR r → RangeDesc.ValidR (RangeDesc.update_by w r c1 c2).1) ∧
    (∀ r a b, RangeDesc.ValidR r → RangeDesc.ValidR (RangeDesc.offset r a b).1) ∧
    (∀ r a b, RangeDesc.ValidR r → RangeDesc.ValidR (RangeDesc.resize r a b).1) ∧
    (∀ r p, RangeDesc.ValidR r → RangeDesc.ValidR (RangeDesc.move w r p).1.1) ∧
    (∀ r m, RangeDesc.ValidR r → RangeDesc.ValidR (RangeDesc.expand w r m).1) ∧
    (∀ s t m e, RangeDesc.ValidR s →
      RangeDesc.ValidR (RangeDesc.shift_away w s t m e).1.1) ∧
    (∀ r ws, RangeDesc.ValidR r → RangeDesc.ValidR (RangeDesc.attach r ws)) ∧
    (∀ r, RangeDesc.ValidR r → RangeDesc.ValidR (RangeDesc.detach r)) ∧
    (∀ r c, RangeDesc.ValidR r →
      RangeDesc.duplicate w r = Except.ok c → RangeDesc.ValidR c) ∧
    (∀ r a b c d e, (RangeDesc.update r a b c d).2 = some e →
      e = Err.invalidRange (a.getD r.row_start) (b.getD r.col_start)
            (c.getD r.row_end) (d.getD r.col_end) ∧
      (a.getD r.row_start > c.getD r.row_end ∨
        b.getD r.col_start > d.getD r.col_end) ∧
      (RangeDesc.update r a b c d).1 = r) := by
  refine ⟨by decide,
    fun r a b c d h => RangeDesc.update_valid r a b c d h,
    fun r d h => RangeDesc.update_from_valid r d h,
    fun r c1 c2 h => RangeDesc.update_by_valid w r c1 c2 h,
    fun r a b h => RangeDesc.offset_valid r a b h,
    fun r a b h => RangeDesc.resize_valid r a b h,
    fun r p h => RangeDesc.move_valid w r p h,
    fun r m h => RangeDesc.expand_valid w r m h,
    fun s t m e h => RangeDesc.shift_away_valid w s t m e h,
    fun r ws h => RangeDesc.attach_valid r ws h,
    fun r h => ⟨h.1, h.2⟩,
    fun r c h hd => RangeDesc.duplicate_valid w r c h hd,
    ?_⟩
  intro r a b c d e
  simp only [RangeDesc.update, RangeDesc.__check__]
  split_ifs with hno
  · intro he
    dsimp only at he
    injection he with h2
    exact ⟨h2.symm, hno, rfl⟩
  · intro he
    exact absurd he (by simp)

/-- Witness for C6: the invariant after a concrete update, a concrete
surface refresh, a concrete shift, and a concrete duplication. -/
theorem c6_invariant_preserved_witness :
    RangeDesc.ValidR (RangeDesc.update sB (some 2) (some 2) (some 3) (some 3)).1 ∧
    RangeDesc.ValidR (RangeDesc.update_by wOk sB (some "A1") none).1 ∧
    RangeDesc.ValidR (RangeDesc.shift_away wOk sB tB "right" true).1.1 ∧
    RangeDesc.ValidR (⟨some "B", some "S", 1, 1, 5, 3⟩ : XlwingsExt.RangeDesc) :=
  ⟨(c6_invariant_preserved wOk).2.1 sB (some 2) (some 2) (some 3) (some 3) (by decide),
   (c6_invariant_preserved wOk).2.2.2.1 sB (some "A1") none (by decide),
   (c6_invariant_preserved wOk).2.2.2.2.2.2.2.2.1 sB tB "right" true (by decide),
   (c6_invariant_preserved wOk).2.2.2.2.2.2.2.2.2.2.2.1 sB
     ⟨some "B", some "S", 1, 1, 5, 3⟩ (by decide) rfl⟩

/-- C7 as stated is refuted at a concrete input: on a region bound to a
workbook/sheet pair whose resolution raises (the surface has vanished),
`update_by` propagates the resolution exception instead of swallowing
it, because the source resolves `self.worksheet` before entering its
try/except block.  The claim says update_by raises nothing on every
resolution failure; here it raises. -/
theorem c7_update_by_cex :
    (RangeDesc.update_by wBad sB (some "A1") none).2 =
      some (Err.resolutionError "B" "S") := rfl

/-- C7 amended: failures on an unbound region and failures of the
address lookup against a successfully resolved surface are swallowed,
leaving bounds and sheet reference unchanged; but a failing resolution
of a bound sheet reference propagates out of `update_by` (the bounds
are still unchanged at the raise). -/
theorem c7_update_by_amended (w : World) (r : XlwingsExt.RangeDesc)
    (c1 c2 : Option String) :
    (∀ ev, RangeDesc.worksheet w r = (Except.ok none, ev) →
      RangeDesc.update_by w r c1 c2 = (r, none)) ∧
    (∀ sid ev, RangeDesc.worksheet w r = (Except.ok (some sid), ev) →
      w.rangeBy sid c1 c2 = none →
      RangeDesc.update_by w r c1 c2 = (r, none)) ∧
    (∀ e ev, RangeDesc.worksheet w r = (Except.error e, ev) →
      RangeDesc.update_by w r c1 c2 = (r, some e)) := by
  refine ⟨?_, ?_, ?_⟩
  · intro ev hw
    unfold RangeDesc.update_by
    rw [hw]
  · intro sid ev hw hrg
    unfold RangeDesc.update_by
    rw [hw]
    dsimp only
    rw [hrg]
  · intro e ev hw
    unfold RangeDesc.update_by
    rw [hw]

/-- Witness for the amended C7: an unbound region is untouched, a failed
address lookup is swallowed, and a failed resolution propagates. -/
theorem c7_update_by_amended_witness :
    RangeDesc.update_by wOk (RangeDesc.detach sB) (some "A1") none =
      (RangeDesc.detach sB, none) ∧
    RangeDesc.update_by wBad sB (some "A1") none =
      (sB, some (Err.resolutionError "B" "S")) :=
  ⟨(c7_update_by_amended wOk (RangeDesc.detach sB) (some "A1") none).1 [] rfl,
   (c7_update_by_amended wBad sB (some "A1") none).2.2
     (Err.resolutionError "B" "S") [SEvent.resolve "B" "S"] rfl⟩

/-- C9 as stated is refuted at a concrete input: on a region bound to a
vanished surface `expand` propagates the resolution exception (raised by
the `range` property before any guard) instead of returning the region —
the claim says every region whose surface cannot be resolved is returned
with unchanged bounds. -/
theorem c9_expand_cex :
    (RangeDesc.expand wBad sB "table").2 = some (Err.resolutionError "B" "S") := rfl

/-- C9 amended: when `self.range` is `None` (unbound region, or the
range lookup on the resolved surface failing) `expand` returns the
region unchanged; when the anchor cell reads as blank it returns the
region unchanged; but when the worksheet resolution itself raises, the
exception propagates (bounds still unchanged at the raise). -/
theorem c9_expand_amended (w : World) (r : XlwingsExt.RangeDesc) (mode : String) :
    (RangeDesc.range w r = Except.ok none →
      RangeDesc.expand w r mode = (r, none)) ∧
    (∀ sid rg, RangeDesc.range w r = Except.ok (some (sid, rg)) →
      w.anchorBlank sid rg = true →
      RangeDesc.expand w r mode = (r, none)) ∧
    (∀ e, RangeDesc.range w r = Except.error e →
      RangeDesc.expand w r mode = (r, some e)) := by
  refine ⟨?_, ?_, ?_⟩
  · intro hr
    unfold RangeDesc.expand
    rw [hr]
  · intro sid rg hr hb
    unfold RangeDesc.expand
    rw [hr]
    dsimp only
    rw [hb, if_pos rfl]
  · intro e hr
    unfold RangeDesc.expand
    rw [hr]

/-- Witness for the amended C9: an unbound region, a blank anchor on a
live surface, and a vanished surface. -/
theorem c9_expand_amended_witness :
    RangeDesc.expand wOk (RangeDesc.detach sB) "table" = (RangeDesc.detach sB, none) ∧
    RangeDesc.expand wOk sB "table" = (sB, none) ∧
    RangeDesc.expand wBad sB "table" = (sB, some (Err.resolutionError "B" "S")) :=
  ⟨(c9_expand_amended wOk (RangeDesc.detach sB) "table").1 rfl,
   (c9_expand_amended wOk sB "table").2.1 ⟨"B", "S"⟩ ⟨1, 1, 1, 1⟩ rfl rfl,
   (c9_expand_amended wBad sB "table").2.2 (Err.resolutionError "B" "S") rfl⟩

/-- C10. `move(target)` with a target that is neither a (row, col) pair,
nor a live range handle, nor an address string falls through all branches
of the type dispatch: it raises nothing, performs no surface call, and
returns the region with bounds and sheet binding untouched. -/
theorem c10_move_other (w : World) (r : XlwingsExt.RangeDesc) :
    RangeDesc.move w r MoveTarget.other = ((r, none), []) := rfl

end XlwingsExt
